import Mathlib

/-!
Verification of the iSleep wait-stepping primitive (src/lib.rs).

The crate exposes two free functions, `snooze` and `accurate_snooze`, both of
the shape

    match total.checked_sub(start.elapsed()) with
      None => false
      Some dt => { sleep(len.min(dt)); true }

We embed durations as natural numbers of nanoseconds (Rust `Duration` is a
non-negative 96-bit quantity; `checked_sub` and `min` never overflow, so `Nat`
is faithful).  The pair `(start, now)` enters the function only through
`start.elapsed() = now - start`, which we pass as the explicit parameter
`elapsed`.  The observable behaviour of one call is the returned boolean
together with the duration handed to the sleep primitive; we record both in
`SnoozeResult`.
-/

namespace ISleep

/-- `Duration::checked_sub`: `some (a - b)` when the difference is
non-negative, `none` when the subtraction would underflow (`b > a`). -/
def checkedSub (a b : Nat) : Option Nat :=
  if b ≤ a then some (a - b) else none

/-- Observable outcome of one call: the boolean returned to the caller and
the duration requested from the sleep primitive (`0` when no sleep happens). -/
structure SnoozeResult where
  returns : Bool
  slept : Nat
deriving DecidableEq

/-- Embedding of `snooze` (src/lib.rs, lines 48-56).  `elapsed` is the value
of `start.elapsed()` at the moment of the call; the call to
`std::thread::sleep(len.min(dt))` is recorded in the `slept` field. -/
def snooze (total len elapsed : Nat) : SnoozeResult :=
  match checkedSub total elapsed with
  | none => ⟨false, 0⟩
  | some dt => ⟨true, min len dt⟩

/-- Embedding of `accurate_snooze` (src/lib.rs, lines 76-84).  Identical to
`snooze` except that the sleep primitive is `spin_sleep::sleep`; the requested
duration is again recorded in the `slept` field. -/
def accurate_snooze (total len elapsed : Nat) : SnoozeResult :=
  match checkedSub total elapsed with
  | none => ⟨false, 0⟩
  | some dt => ⟨true, min len dt⟩

/-- Idealized clock for repeated calls on one session: elapsed time starts at
`0` and advances by exactly the requested sleep duration of each call. -/
def idealElapsed (total len : Nat) : Nat → Nat
  | 0 => 0
  | k + 1 => idealElapsed total len k + (snooze total len (idealElapsed total len k)).slept

/- ### Basic lemmas about one call -/

theorem snooze_eq_of_le (total len e : Nat) (h : e ≤ total) :
    snooze total len e = ⟨true, min len (total - e)⟩ := by
  simp [snooze, checkedSub, h]

theorem snooze_eq_of_gt (total len e : Nat) (h : total < e) :
    snooze total len e = ⟨false, 0⟩ := by
  have h' : ¬ e ≤ total := by omega
  simp [snooze, checkedSub, h']

theorem snooze_returns_true_iff (total len e : Nat) :
    (snooze total len e).returns = true ↔ e ≤ total := by
  rcases le_or_lt e total with h | h
  · simp [snooze_eq_of_le total len e h, h]
  · have h' : ¬ e ≤ total := by omega
    simp [snooze_eq_of_gt total len e h, h']

theorem snooze_returns_false_iff (total len e : Nat) :
    (snooze total len e).returns = false ↔ total < e := by
  rcases le_or_lt e total with h | h
  · have h' : ¬ total < e := by omega
    simp [snooze_eq_of_le total len e h, h']
  · simp [snooze_eq_of_gt total len e h, h]

theorem snooze_slept_of_le (total len e : Nat) (h : e ≤ total) :
    (snooze total len e).slept = min len (total - e) := by
  rw [snooze_eq_of_le total len e h]

/- ### The idealized-clock trajectory -/

theorem idealElapsed_eq (total len : Nat) :
    ∀ k, idealElapsed total len k = min (k * len) total
  | 0 => by simp [idealElapsed]
  | k + 1 => by
    have ih := idealElapsed_eq total len k
    have hle : min (k * len) total ≤ total := Nat.min_le_right _ _
    rw [idealElapsed, ih, snooze_eq_of_le total len _ hle]
    show min (k * len) total + min len (total - min (k * len) total) = min ((k + 1) * len) total
    rw [Nat.succ_mul]
    omega

/- ### Clock advance: elapsed time grows by at least each requested sleep -/

theorem elapsed_ge_sum (total : Nat) (lens e : Nat → Nat) :
    ∀ k, (∀ i, i < k → e i + (snooze total (lens i) (e i)).slept ≤ e (i + 1)) →
      e 0 + (Finset.range k).sum (fun i => (snooze total (lens i) (e i)).slept) ≤ e k := by
  intro k
  induction k with
  | zero => simp
  | succ n ih =>
    intro h
    rw [Finset.sum_range_succ]
    have h1 := ih (fun i hi => h i (Nat.lt_succ_of_lt hi))
    have h2 := h n (Nat.lt_succ_self n)
    omega

/-- For `0 < len`, `(t + len - 1) / len` is the ceiling of `t / len`, and
`k` lies below it exactly when `k * len < t`. -/
theorem lt_ceilDiv_iff (t len k : Nat) (h1 : 0 < len) :
    k < (t + len - 1) / len ↔ k * len < t := by
  rw [Nat.lt_iff_add_one_le, Nat.le_div_iff_mul_le h1, Nat.succ_mul]
  have h2 : k * len = k * len := rfl
  generalize k * len = m at h2 ⊢
  omega

/- ### Example witnesses for the multi-call claims -/

/-- Per-call maximum step lengths used in the example session: always `4`. -/
def wLens : Nat → Nat := fun _ => 4

/-- Clock readings of the example session for a budget of `10`: the first
call sees elapsed `0` and sleeps `4`, the second sees `4` and sleeps `4`,
the third sees `11` and finds the budget exhausted. -/
def wElapsed : Nat → Nat := fun i => if i = 0 then 0 else if i = 1 then 4 else 11

/-- Clock readings of a session that is already expired at its first call:
elapsed time starts at `6` and grows by one each call. -/
def wLateClock : Nat → Nat := fun n => 6 + n

/- ### The claims -/

/-- C1: for every budget `total` and every sequence of `snooze` calls on one
session whose clock advances by at least each call's requested sleep, if the
calls at indices `0, ..., k-1` return `true` and the call at index `k`
returns `false`, then the sum of the requested sleep durations
`Σ min(len_i, remaining_i)` is at most `total`. -/
theorem claim_C1_sum_of_requests_le_total (total : Nat) (lens e : Nat → Nat) (k : Nat)
    (htrue : ∀ i, i < k → (snooze total (lens i) (e i)).returns = true)
    (hfalse : (snooze total (lens k) (e k)).returns = false)
    (hclock : ∀ i, i < k → e i + (snooze total (lens i) (e i)).slept ≤ e (i + 1)) :
    (Finset.range k).sum (fun i => (snooze total (lens i) (e i)).slept) ≤ total := by
  cases k with
  | zero => simp
  | succ n =>
    rw [Finset.sum_range_succ]
    have hsum := elapsed_ge_sum total lens e n (fun i hi => hclock i (Nat.lt_succ_of_lt hi))
    have hn : e n ≤ total :=
      (snooze_returns_true_iff total (lens n) (e n)).mp (htrue n (Nat.lt_succ_self n))
    have hslept : (snooze total (lens n) (e n)).slept = min (lens n) (total - e n) :=
      snooze_slept_of_le total (lens n) (e n) hn
    have hmin : min (lens n) (total - e n) ≤ total - e n := Nat.min_le_right _ _
    omega

/-- Witness for C1: the concrete session with budget `10`, step lengths `4`
and clock readings `0, 4, 11` requests sleeps `4 + 4 = 8 ≤ 10`. -/
theorem claim_C1_witness :
    (snooze 10 (wLens 2) (wElapsed 2)).returns = false ∧
    (Finset.range 2).sum (fun i => (snooze 10 (wLens i) (wElapsed i)).slept) ≤ 10 :=
  ⟨by decide,
   claim_C1_sum_of_requests_le_total 10 wLens wElapsed 2 (by decide) (by decide) (by decide)⟩

/-- C2 counterexample: the claim says `snooze` returns `false` whenever
`elapsed ≥ total`, but at `total = 5`, `elapsed = 5` (and `len = 3`) the code
computes `checked_sub = Some(0)` and returns `true`. -/
theorem claim_C2_counterexample :
    5 ≤ 5 ∧ (snooze 5 3 5).returns = true := by decide

/-- C2 (amended): `snooze` returns `false` — performing no sleep — exactly
when `elapsed` strictly exceeds `total`; at `elapsed = total` it still
returns `true` (with a zero-duration sleep request). -/
theorem claim_C2_false_iff_strictly_exhausted (total len e : Nat) :
    snooze total len e = ⟨false, 0⟩ ↔ total < e := by
  rcases le_or_lt e total with h | h
  · rw [snooze_eq_of_le total len e h]
    simp only [SnoozeResult.mk.injEq]
    constructor
    · intro hc
      exact absurd hc.1 (by simp)
    · intro hc
      exact absurd hc (by omega)
  · simp [snooze_eq_of_gt total len e h, h]

/-- C3: whenever `elapsed < total`, `snooze` requests a sleep of exactly
`min len (total - elapsed)` from the sleep primitive and returns `true`. -/
theorem claim_C3_sleeps_min_and_returns_true (total len e : Nat) (h : e < total) :
    snooze total len e = ⟨true, min len (total - e)⟩ :=
  snooze_eq_of_le total len e (Nat.le_of_lt h)

/-- Witness for C3 at `total = 5`, `len = 3`, `elapsed = 2`. -/
theorem claim_C3_witness :
    2 < 5 ∧ snooze 5 3 2 = ⟨true, min 3 (5 - 2)⟩ :=
  ⟨by decide, claim_C3_sleeps_min_and_returns_true 5 3 2 (by decide)⟩

/-- C4: on one session (fixed `total`) with a monotonically non-decreasing
clock, once some call returns `false`, every later call returns `false` as
well, whatever `len` each call uses. -/
theorem claim_C4_false_is_permanent (total : Nat) (lens e : Nat → Nat)
    (hmono : ∀ i j, i ≤ j → e i ≤ e j) (i j : Nat) (hij : i ≤ j)
    (hfalse : (snooze total (lens i) (e i)).returns = false) :
    (snooze total (lens j) (e j)).returns = false := by
  rw [snooze_returns_false_iff] at hfalse ⊢
  exact Nat.lt_of_lt_of_le hfalse (hmono i j hij)

/-- Witness for C4: with budget `5` and clock readings `6 + n`, call `0`
returns `false` and so does call `2`. -/
theorem claim_C4_witness :
    (snooze 5 (wLens 0) (wLateClock 0)).returns = false ∧
    (snooze 5 (wLens 2) (wLateClock 2)).returns = false :=
  ⟨by decide,
   claim_C4_false_is_permanent 5 wLens wLateClock
     (fun i j h => Nat.add_le_add_left h 6) 0 2 (by decide) (by decide)⟩

/-- C5 counterexample: with `total = 1000` and `len = 300` under the
idealized clock (elapsed advances by exactly each requested sleep), the
claim predicts `true, true, true, true` and then `false` at the fifth call;
in fact all five calls return `true` — after the fourth call the elapsed
time equals `total` exactly, `checked_sub` yields `Some(0)`, and every
further call requests a zero sleep and returns `true`. -/
theorem claim_C5_counterexample :
    (snooze 1000 300 (idealElapsed 1000 300 0)).returns = true ∧
    (snooze 1000 300 (idealElapsed 1000 300 1)).returns = true ∧
    (snooze 1000 300 (idealElapsed 1000 300 2)).returns = true ∧
    (snooze 1000 300 (idealElapsed 1000 300 3)).returns = true ∧
    (snooze 1000 300 (idealElapsed 1000 300 4)).returns = true := by decide

/-- C5 (amended): for `0 < len < total` under the idealized clock, every
call returns `true` (a `false` return would need elapsed to strictly exceed
`total`, which this clock never produces), and the calls that request a
positive sleep are exactly the first `⌈total/len⌉ = (total + len - 1)/len`
calls; for `total = 1000`, `len = 300` that is 4 positive-sleep calls
(`300, 300, 300, 100`), all later calls requesting `0`. -/
theorem claim_C5_ideal_clock_ceil (total len : Nat) (h1 : 0 < len) (_h2 : len < total)
    (k : Nat) :
    (snooze total len (idealElapsed total len k)).returns = true ∧
    ((snooze total len (idealElapsed total len k)).slept ≠ 0 ↔
      k < (total + len - 1) / len) := by
  have he := idealElapsed_eq total len k
  have hle : min (k * len) total ≤ total := Nat.min_le_right _ _
  rw [he]
  constructor
  · exact (snooze_returns_true_iff total len _).mpr hle
  · rw [snooze_slept_of_le total len _ hle, lt_ceilDiv_iff total len k h1]
    generalize k * len = m
    omega

/-- Witness for C5 (amended) at `total = 1000`, `len = 300`, call index
`k = 4`: the call returns `true` and its requested sleep is zero, matching
`¬ (4 < ⌈1000/300⌉ = 4)`. -/
theorem claim_C5_witness :
    0 < 300 ∧ 300 < 1000 ∧
    ((snooze 1000 300 (idealElapsed 1000 300 4)).returns = true ∧
     ((snooze 1000 300 (idealElapsed 1000 300 4)).slept ≠ 0 ↔
       4 < (1000 + 300 - 1) / 300)) :=
  ⟨by decide, by decide, claim_C5_ideal_clock_ceil 1000 300 (by decide) (by decide) 4⟩

/-- C6 counterexample: the claim says that with `total = 0` the call returns
`false` for every elapsed `≥ 0`, but at `elapsed = 0` the code computes
`checked_sub(0 - 0) = Some(0)` and returns `true`. -/
theorem claim_C6_counterexample :
    (snooze 0 7 0).returns = true ∧ (snooze 0 7 0).slept = 0 := by decide

/-- C6 (amended): with `total = 0` the requested sleep is always zero, and
the call returns `false` exactly when `elapsed > 0`; at `elapsed = 0` it
returns `true` with a zero-duration sleep request. -/
theorem claim_C6_total_zero (len e : Nat) :
    (snooze 0 len e).slept = 0 ∧ ((snooze 0 len e).returns = false ↔ 0 < e) := by
  cases e with
  | zero => simp [snooze, checkedSub]
  | succ n => simp [snooze, checkedSub]

/-- C7 counterexample: the claim says the call returns `false` once the
session is expired (`elapsed ≥ total`), but at `total = 5`, `elapsed = 5`
with `len = 0` the code returns `true`. -/
theorem claim_C7_counterexample :
    5 ≤ 5 ∧ (snooze 5 0 5).returns = true := by decide

/-- C7 (amended): with `len = 0` the requested sleep is always zero and the
call returns `true` exactly when `elapsed ≤ total`; for any `len`, the call
returns `false` exactly when `elapsed` strictly exceeds `total`. -/
theorem claim_C7_len_zero (total len e : Nat) :
    (snooze total 0 e).slept = 0 ∧
    ((snooze total 0 e).returns = true ↔ e ≤ total) ∧
    ((snooze total len e).returns = false ↔ total < e) := by
  refine ⟨?_, snooze_returns_true_iff total 0 e, snooze_returns_false_iff total len e⟩
  rcases le_or_lt e total with h | h
  · rw [snooze_slept_of_le total 0 e h]
    simp
  · rw [snooze_eq_of_gt total 0 e h]

/-- C8: a single call never requests a sleep longer than its `len`
argument: the duration handed to the sleep primitive is `≤ len`. -/
theorem claim_C8_request_le_len (total len e : Nat) :
    (snooze total len e).slept ≤ len := by
  rcases le_or_lt e total with h | h
  · rw [snooze_slept_of_le total len e h]
    exact Nat.min_le_left _ _
  · rw [snooze_eq_of_gt total len e h]
    exact Nat.zero_le _

/-- C9: `accurate_snooze` is observably identical to `snooze`: for every
`total`, `len` and elapsed value it returns the same boolean and requests
the same sleep duration; in the source the two bodies differ only in the
sleep primitive invoked (`spin_sleep::sleep` vs `std::thread::sleep`). -/
theorem claim_C9_accurate_snooze_eq_snooze (total len e : Nat) :
    accurate_snooze total len e = snooze total len e := rfl

/-- C10: the boolean returned by `snooze` does not depend on `len` — two
calls with the same `total` and the same elapsed time return the same value
whatever their `len` arguments. -/
theorem claim_C10_return_independent_of_len (total len1 len2 e : Nat) :
    (snooze total len1 e).returns = (snooze total len2 e).returns := by
  rcases le_or_lt e total with h | h
  · rw [snooze_eq_of_le total len1 e h, snooze_eq_of_le total len2 e h]
  · rw [snooze_eq_of_gt total len1 e h, snooze_eq_of_gt total len2 e h]

end ISleep
